import Mathlib

/-!
Shallow embedding of `pyvpnc` (`src/vpnc/__init__.py`), a thin wrapper that
renders a VPNC configuration file, places it in a privileged directory and
invokes the external `vpnc` / `vpnc-disconnect` binaries.

Modelling choices:
* External command results are an environment `Env : List String → ProcResult`
  mapping an argument vector to its exit code and captured output streams.
* Program state `PyState` holds a small filesystem model (written only by the
  Python-side `open`/`print` calls) and the trace of external commands issued,
  in order.  External commands do not mutate the modelled filesystem: their
  effects happen outside the program, so a file can only be deleted in an
  execution whose trace actually contains the corresponding `rm` invocation.
* Python exceptions are an explicit error type `PyErr`; note that
  `subprocess.CalledProcessError` is a distinct class from the module-level
  `ProcessException`, which matters for `remove_config_file`.
* `signal.Signals` resolution (platform dependent, from the standard library)
  is a parameter `sig : Int → Option String` returning the repr of the signal
  when the number is known.
-/

/-- Result of running one external command: exit code plus captured
stdout / stderr (modelled as strings). -/
structure ProcResult where
  returncode : Int
  stdout : String
  stderr : String
deriving DecidableEq

/-- The environment assigns to every argument vector the result its external
command would produce. -/
abbrev Env : Type := List String → ProcResult

/-- Embedding of the module-level `ProcessException(returncode, cmd, stdout, stderr)`. -/
structure ProcessException where
  returncode : Int
  cmd : List String
  stdout : String
  stderr : String
deriving DecidableEq

/-- Python exceptions that can arise in this module.  `calledProcessError`
stands for `subprocess.CalledProcessError`, which is *not* the same class as
`ProcessException` (nothing in this module ever raises it). -/
inductive PyErr where
  | procError : ProcessException → PyErr
  | keyError : String → PyErr
  | typeError : String → PyErr
  | calledProcessError : PyErr
deriving DecidableEq

/-- Filesystem model: association list from path to file content. -/
abbrev FS : Type := List (String × String)

/-- Writing (creating or truncating plus writing) a file. -/
def FS.write (fs : FS) (p c : String) : FS :=
  (p, c) :: fs.filter (fun e => !(e.1 == p))

/-- Program state: modelled filesystem plus the ordered trace of external
commands issued so far. -/
structure PyState where
  fs : FS
  trace : List (List String)
deriving DecidableEq

/-- State-and-exception monad for the embedded Python code. -/
abbrev PyM (α : Type) : Type := PyState → Except PyErr α × PyState

/-- Sequencing: an uncaught exception aborts the rest of the computation but
keeps the state reached so far (trace and filesystem persist). -/
def PyM.bind {α β : Type} (m : PyM α) (f : α → PyM β) : PyM β := fun s =>
  match m s with
  | (Except.ok a, s₁) => f a s₁
  | (Except.error e, s₁) => (Except.error e, s₁)

def PyM.pure {α : Type} (a : α) : PyM α := fun s => (Except.ok a, s)

/-- Embedding of `process_call(cmd)`: run the command (recording it in the
trace), raise `ProcessException` when the exit code is non-zero
(`if process.returncode:`), otherwise return `(returncode, stdout, stderr)`.
`process.args` equals the argument vector passed to `Popen`. -/
def process_call (env : Env) (cmd : List String) : PyM (Int × String × String) := fun s =>
  let r := env cmd
  let s₁ : PyState := { s with trace := s.trace ++ [cmd] }
  if r.returncode ≠ 0 then
    (Except.error (PyErr.procError ⟨r.returncode, cmd, r.stdout, r.stderr⟩), s₁)
  else
    (Except.ok (r.returncode, r.stdout, r.stderr), s₁)

/-- Python single-quote character (codepoint 39), used by `repr`/`%s` of lists. -/
def pyQuote : String := String.mk [Char.ofNat 39]

/-- Python `str` of a list of strings, e.g. `['mv', '/tmp/x']`. -/
def pyListRepr (l : List String) : String :=
  "[" ++ String.intercalate ", " (l.map (fun x => pyQuote ++ x ++ pyQuote)) ++ "]"

/-- Embedding of `ProcessException.__str__`.  `sig n` is `repr(signal.Signals(n))`
when `n` is a known signal number and `none` when `signal.Signals(n)` raises
`ValueError`.  The Python guard is `if self.returncode and self.returncode < 0`. -/
def ProcessException.str (sig : Int → Option String) (e : ProcessException) : String :=
  if e.returncode ≠ 0 ∧ e.returncode < 0 then
    match sig (-e.returncode) with
    | some r =>
        "Command " ++ pyQuote ++ pyListRepr e.cmd ++ pyQuote ++ " died with " ++ r ++ "."
    | none =>
        "Command " ++ pyQuote ++ pyListRepr e.cmd ++ pyQuote ++
          " died with unknown signal " ++ toString (-e.returncode) ++ "."
  else
    "Command " ++ pyQuote ++ pyListRepr e.cmd ++ pyQuote ++
      " returned non-zero exit status " ++ toString e.returncode ++ "."

/-- Python dict of config fields, with insertion-irrelevant key lookup. -/
abbrev Config : Type := List (String × String)

/-- Dictionary lookup `config[k]` as used by percent-formatting. -/
def lookupKey (cfg : Config) (k : String) : Option String :=
  List.lookup k cfg

/-- Embedding of `str.startswith` via character lists. -/
def pyStartsWith (s p : String) : Bool :=
  List.isPrefixOf p.data s.data

/-- True when the path ends in the separator, as `path.endswith(sep)`. -/
def endsWithSlash (a : String) : Bool :=
  a.data.getLast? == some (Char.ofNat 47)

/-- Embedding of `posixpath.join` for two components. -/
def pyJoin (a b : String) : String :=
  if pyStartsWith b "/" then b
  else if a = "" ∨ endsWithSlash a then a ++ b
  else a ++ "/" ++ b

/-- Embedding of a fully constructed `VPNC` object.  `config_folder` is a
plain string because a `None` folder makes the constructor raise before the
object is obtained. -/
structure VPNC where
  config : Config
  config_file : String
  temp_config_path : String
  config_folder : String
  config_path : String
deriving DecidableEq

/-- Embedding of `VPNC.__init__(config, config_file, config_folder)`.
`platform` is `sys.platform`, `here` is the module directory `HERE`.
`config or dict()` is `Option.getD`; when `config_folder` is `None` it is
resolved from the platform, and if it is still `None` the final
`os.path.join(self.config_folder, self.config_file)` raises `TypeError`. -/
def VPNC.init (platform here : String) (config : Option Config)
    (config_file : String) (config_folder : Option String) : Except PyErr VPNC :=
  let cfg : Config := config.getD []
  let temp : String := pyJoin here config_file
  let folder : Option String :=
    match config_folder with
    | some f => some f
    | none =>
        if pyStartsWith platform "linux" then some "/etc/vpnc"
        else if pyStartsWith platform "darwin" then some "/usr/local/etc/vpnc"
        else none
  match folder with
  | some f =>
      Except.ok { config := cfg, config_file := config_file, temp_config_path := temp,
                  config_folder := f, config_path := pyJoin f config_file }
  | none =>
      Except.error (PyErr.typeError "expected str, bytes or os.PathLike object, not NoneType")

/-- The six keys of the percent-format template, in the order the template
mentions them (formatting resolves them left to right, so the first missing
one raises `KeyError`). -/
def requiredKeys : List String :=
  ["IPSec_gateway", "IPSec_ID", "IPSec_secret",
   "IKE_Authmode", "Xauth_username", "Xauth_password"]

/-- Embedding of the percent-format expression in `create_config_file`: the
fixed six-line template with `%(key)s` substitution; a missing key raises
`KeyError` at its first occurrence, values are inserted verbatim. -/
def formatConfig (cfg : Config) : Except PyErr String :=
  match lookupKey cfg "IPSec_gateway" with
  | none => Except.error (PyErr.keyError "IPSec_gateway")
  | some g =>
    match lookupKey cfg "IPSec_ID" with
    | none => Except.error (PyErr.keyError "IPSec_ID")
    | some i =>
      match lookupKey cfg "IPSec_secret" with
      | none => Except.error (PyErr.keyError "IPSec_secret")
      | some sec =>
        match lookupKey cfg "IKE_Authmode" with
        | none => Except.error (PyErr.keyError "IKE_Authmode")
        | some m =>
          match lookupKey cfg "Xauth_username" with
          | none => Except.error (PyErr.keyError "Xauth_username")
          | some u =>
            match lookupKey cfg "Xauth_password" with
            | none => Except.error (PyErr.keyError "Xauth_password")
            | some p =>
              Except.ok ("IPSec gateway " ++ g ++ "\n" ++
                         "IPSec ID " ++ i ++ "\n" ++
                         "IPSec secret " ++ sec ++ "\n" ++
                         "IKE Authmode " ++ m ++ "\n" ++
                         "Xauth username " ++ u ++ "\n" ++
                         "Xauth password " ++ p)

/-- Embedding of `VPNC.create_config_file`: `open(self.temp_config_path, "w+")`
creates/truncates the file first; then the formatted template is printed into
it (with the trailing newline `print` adds).  If formatting raises
(`KeyError`), the truncated empty file is left behind. -/
def VPNC.create_config_file (v : VPNC) : PyM Unit := fun s =>
  let fs₁ : FS := FS.write s.fs v.temp_config_path ""
  match formatConfig v.config with
  | Except.error e => (Except.error e, { s with fs := fs₁ })
  | Except.ok str =>
      (Except.ok (), { s with fs := FS.write fs₁ v.temp_config_path (str ++ "\n") })

/-- Argument vector of the `mv` step of `move_config_file`. -/
def mvCmd (v : VPNC) : List String := ["mv", v.temp_config_path, v.config_folder]

/-- Argument vector of the `chown` step of `move_config_file`. -/
def chownCmd (v : VPNC) : List String := ["chown", "root:root", v.config_path]

/-- Argument vector of the `chmod` step of `move_config_file`. -/
def chmodCmd (v : VPNC) : List String := ["chmod", "600", v.config_path]

/-- Argument vector of the connect step: the external binary with the fixed
profile name. -/
def vpncCmd : List String := ["vpnc", "tempvpnc"]

/-- Argument vector of the disconnect step. -/
def vpncDisconnectCmd : List String := ["vpnc-disconnect"]

/-- Argument vector of the removal step of `remove_config_file`. -/
def rmCmd (v : VPNC) : List String := ["rm", v.config_path]

/-- Embedding of `VPNC.move_config_file`: `mv`, then `chown root:root`, then
`chmod 600`, each through `process_call`. -/
def VPNC.move_config_file (env : Env) (v : VPNC) : PyM Unit :=
  PyM.bind (process_call env (mvCmd v)) (fun _ =>
  PyM.bind (process_call env (chownCmd v)) (fun _ =>
  PyM.bind (process_call env (chmodCmd v)) (fun _ =>
  PyM.pure ())))

/-- Embedding of `VPNC.remove_config_file`: `try: process_call(["rm", ...]);
return True` with `except subprocess.CalledProcessError: return False`.  Only
the class `CalledProcessError` is caught; the `ProcessException` that
`process_call` actually raises is a different class and passes through. -/
def VPNC.remove_config_file (env : Env) (v : VPNC) : PyM Bool := fun s =>
  match process_call env (rmCmd v) s with
  | (Except.ok _, s₁) => (Except.ok true, s₁)
  | (Except.error PyErr.calledProcessError, s₁) => (Except.ok false, s₁)
  | (Except.error e, s₁) => (Except.error e, s₁)

/-- Embedding of `VPNC.connect`: render the config file, move it into place,
then run `vpnc tempvpnc`. -/
def VPNC.connect (env : Env) (v : VPNC) : PyM Unit :=
  PyM.bind (VPNC.create_config_file v) (fun _ =>
  PyM.bind (VPNC.move_config_file env v) (fun _ =>
  PyM.bind (process_call env vpncCmd) (fun _ =>
  PyM.pure ())))

/-- Embedding of `VPNC.disconnect`: run `vpnc-disconnect`, then
`remove_config_file` (whose boolean result is discarded). -/
def VPNC.disconnect (env : Env) (v : VPNC) : PyM Unit :=
  PyM.bind (process_call env vpncDisconnectCmd) (fun _ =>
  PyM.bind (VPNC.remove_config_file env v) (fun _ =>
  PyM.pure ()))

/-- Embedding of the `@contextmanager` helper `VPNC.vpn`: `connect()`, the
body of the `with` block at the `yield` point, then `disconnect()`.  There is
no `try`/`finally` around the `yield`, so an exception in the body propagates
and `disconnect` is never reached. -/
def VPNC.vpn (env : Env) (v : VPNC) (body : PyM Unit) : PyM Unit :=
  PyM.bind (VPNC.connect env v) (fun _ =>
  PyM.bind body (fun _ =>
  VPNC.disconnect env v))

/-- Splitting a character list at newline characters; the result is the list
of segments and always has one more element than the number of newlines. -/
def splitNl : List Char → List (List Char)
  | [] => [[]]
  | c :: rest =>
      let r := splitNl rest
      if c = Char.ofNat 10 then [] :: r
      else (c :: r.headD []) :: r.tail

/-- Dropping the final empty segment, as `str.splitlines` ignores a trailing
newline. -/
def dropTrailingEmpty : List (List Char) → List (List Char)
  | [] => []
  | [[]] => []
  | x :: xs => x :: dropTrailingEmpty xs

/-- The lines of a text file in the Python sense (`splitlines` on newline). -/
def pyLines (s : String) : List String :=
  (dropTrailingEmpty (splitNl s.data)).map String.mk

deriving instance DecidableEq for Except

/-- Concrete complete config used by witnesses. -/
def cfg0 : Config :=
  [("IPSec_ID", "id"), ("IPSec_gateway", "gw"), ("IPSec_secret", "sc"),
   ("Xauth_username", "u"), ("Xauth_password", "p"), ("IKE_Authmode", "psk")]

/-- Concrete `VPNC` object as built by the constructor on a Linux platform
with module directory `/app/vpnc` and the default file name. -/
def v0 : VPNC :=
  { config := cfg0, config_file := "tempvpnc.conf",
    temp_config_path := "/app/vpnc/tempvpnc.conf",
    config_folder := "/etc/vpnc", config_path := "/etc/vpnc/tempvpnc.conf" }

/-- Initial state: empty filesystem, empty command trace. -/
def st0 : PyState := { fs := [], trace := [] }

/-- Environment in which every external command succeeds silently. -/
def envOk : Env := fun _ => ⟨0, "", ""⟩

/-- Environment in which every external command exits with code 2. -/
def envExit2 : Env := fun _ => ⟨2, "out", "err"⟩

/-- Environment in which only the removal command fails (exit code 1). -/
def envRmFail : Env :=
  fun c => if c = rmCmd v0 then ⟨1, "", "rm: cannot remove"⟩ else ⟨0, "", ""⟩

/-- Environment in which only `vpnc-disconnect` fails (exit code 1). -/
def envDcFail : Env :=
  fun c => if c = vpncDisconnectCmd then ⟨1, "", "no vpnc found running"⟩ else ⟨0, "", ""⟩

/-- Environment in which only the `chown` step fails (exit code 3). -/
def envChownFail : Env :=
  fun c => if c = chownCmd v0 then ⟨3, "", "chown: operation not permitted"⟩ else ⟨0, "", ""⟩

/-- The rendered template body for `cfg0` (before the trailing newline
added by `print`). -/
def body0 : String :=
  "IPSec gateway gw\nIPSec ID id\nIPSec secret sc\nIKE Authmode psk\nXauth username u\nXauth password p"

/-- State reached after a fully successful `connect` from `st0`. -/
def stConn : PyState :=
  { fs := [("/app/vpnc/tempvpnc.conf", body0 ++ "\n")],
    trace := [mvCmd v0, chownCmd v0, chmodCmd v0, vpncCmd] }

/-- Config missing five of the six required keys. -/
def cfgMissing : Config := [("IPSec_ID", "id")]

/-- A `VPNC` whose config lacks required keys. -/
def vMissing : VPNC := { v0 with config := cfgMissing }

/-- Complete config whose gateway value contains an embedded newline. -/
def cfgNl : Config :=
  [("IPSec_gateway", "a\nb"), ("IPSec_ID", "id"), ("IPSec_secret", "sc"),
   ("IKE_Authmode", "psk"), ("Xauth_username", "u"), ("Xauth_password", "p")]

/-- A `VPNC` whose config has a newline inside a field value. -/
def vNl : VPNC := { v0 with config := cfgNl }

/-- The file content rendered from `cfgNl`: seven physical lines. -/
def contentNl : String :=
  "IPSec gateway a\nb\nIPSec ID id\nIPSec secret sc\nIKE Authmode psk\nXauth username u\nXauth password p\n"

/-- A body for the scoped-session helper that raises an exception. -/
def bodyBoom : PyM Unit := fun s => (Except.error (PyErr.keyError "boom"), s)

/-- Signal table resolving only signal 9, as `repr(signal.Signals(9))`. -/
def sigKill9 : Int → Option String :=
  fun n => if n = 9 then some "<Signals.SIGKILL: 9>" else none

/-- A `ProcessException` for a command killed by signal 9. -/
def exKill : ProcessException := ⟨-9, ["vpnc", "tempvpnc"], "", ""⟩

/-- No newline occurs among the characters of a string. -/
def noNl (v : String) : Prop := ∀ c ∈ v.data, c ≠ Char.ofNat 10

instance (v : String) : Decidable (noNl v) := by
  unfold noNl; infer_instance

lemma PyM.bind_apply {α β : Type} (m : PyM α) (f : α → PyM β) (s : PyState) :
    PyM.bind m f s =
      match m s with
      | (Except.ok a, s₁) => f a s₁
      | (Except.error e, s₁) => (Except.error e, s₁) := rfl

lemma process_call_zero (env : Env) (cmd : List String) (s : PyState)
    (h : (env cmd).returncode = 0) :
    process_call env cmd s =
      (Except.ok ((env cmd).returncode, (env cmd).stdout, (env cmd).stderr),
       { s with trace := s.trace ++ [cmd] }) := by
  unfold process_call
  simp [h]

lemma process_call_nonzero (env : Env) (cmd : List String) (s : PyState)
    (h : (env cmd).returncode ≠ 0) :
    process_call env cmd s =
      (Except.error (PyErr.procError
         ⟨(env cmd).returncode, cmd, (env cmd).stdout, (env cmd).stderr⟩),
       { s with trace := s.trace ++ [cmd] }) := by
  unfold process_call
  simp [h]

lemma splitNl_segment (l rest : List Char) (hl : ∀ c ∈ l, c ≠ Char.ofNat 10) :
    splitNl (l ++ Char.ofNat 10 :: rest) = l :: splitNl rest := by
  induction l with
  | nil =>
      simp [splitNl]
  | cons c l ih =>
      have hc : c ≠ Char.ofNat 10 := hl c (by simp)
      have hrest := ih (fun x hx => hl x (by simp [hx]))
      simp only [List.cons_append, splitNl, if_neg hc, List.append_eq]
      rw [hrest]
      simp

lemma splitNl_chunk (k v rest : List Char)
    (hk : ∀ c ∈ k, c ≠ Char.ofNat 10) (hv : ∀ c ∈ v, c ≠ Char.ofNat 10) :
    splitNl (k ++ (v ++ Char.ofNat 10 :: rest)) = (k ++ v) :: splitNl rest := by
  rw [← List.append_assoc]
  exact splitNl_segment (k ++ v) rest (by
    intro c hc
    rcases List.mem_append.mp hc with h | h
    · exact hk c h
    · exact hv c h)

lemma dropTrailingEmpty_cons (x y : List Char) (ys : List (List Char)) :
    dropTrailingEmpty (x :: y :: ys) = x :: dropTrailingEmpty (y :: ys) := by
  cases x with
  | nil => rfl
  | cons c cs => rfl

lemma mk_data_append (a b : String) : String.mk (a.data ++ b.data) = a ++ b := by
  cases a
  cases b
  rfl

/-- C1: the claim says an `rm` failure inside `remove_config_file` is caught
and surfaced as the return value `False` with no exception reaching the
caller.  In the code the `except` clause names `subprocess.CalledProcessError`
while `process_call` raises the unrelated class `ProcessException`, so when
the removal command exits non-zero the exception propagates out of
`remove_config_file` (and hence out of `disconnect`); the result is never
`Except.ok false`. -/
theorem remove_config_file_rm_failure_raises :
    (VPNC.remove_config_file envRmFail v0 st0 =
      (Except.error (PyErr.procError ⟨1, rmCmd v0, "", "rm: cannot remove"⟩),
       { fs := [], trace := [rmCmd v0] })) ∧
    (VPNC.disconnect envRmFail v0 st0 =
      (Except.error (PyErr.procError ⟨1, rmCmd v0, "", "rm: cannot remove"⟩),
       { fs := [], trace := [vpncDisconnectCmd, rmCmd v0] })) := by
  decide

/-- C4: a `ProcessException` with a negative stored return code renders as
a message naming the terminating signal whenever `-returncode` resolves to a
known signal, and as the unknown-signal message with `N = -returncode`
otherwise; a positive return code renders as the non-zero-exit-status
message. -/
theorem processException_str_cases (sig : Int → Option String) (e : ProcessException) :
    (e.returncode < 0 → ∀ r, sig (-e.returncode) = some r →
      ProcessException.str sig e =
        "Command " ++ pyQuote ++ pyListRepr e.cmd ++ pyQuote ++ " died with " ++ r ++ ".") ∧
    (e.returncode < 0 → sig (-e.returncode) = none →
      ProcessException.str sig e =
        "Command " ++ pyQuote ++ pyListRepr e.cmd ++ pyQuote ++
          " died with unknown signal " ++ toString (-e.returncode) ++ ".") ∧
    (0 < e.returncode →
      ProcessException.str sig e =
        "Command " ++ pyQuote ++ pyListRepr e.cmd ++ pyQuote ++
          " returned non-zero exit status " ++ toString e.returncode ++ ".") := by
  refine ⟨?_, ?_, ?_⟩
  · intro hneg r hr
    unfold ProcessException.str
    rw [if_pos ⟨by omega, hneg⟩, hr]
  · intro hneg hr
    unfold ProcessException.str
    rw [if_pos ⟨by omega, hneg⟩, hr]
  · intro hpos
    unfold ProcessException.str
    rw [if_neg (by omega)]

/-- C4 witness: a command killed by signal 9 under a table resolving signal 9
to its repr yields the message naming SIGKILL. -/
theorem processException_str_cases_witness :
    ProcessException.str sigKill9 exKill =
      "Command " ++ pyQuote ++ pyListRepr exKill.cmd ++ pyQuote ++
        " died with " ++ "<Signals.SIGKILL: 9>" ++ "." :=
  (processException_str_cases sigKill9 exKill).1 (by decide) "<Signals.SIGKILL: 9>" rfl

/-- C5: `process_call` raises `ProcessException` exactly when the exit code
is non-zero; the raised object stores that exit code and the invoked argument
vector (plus the captured streams), and a zero exit returns
`(0, stdout, stderr)`. -/
theorem process_call_raises_iff (env : Env) (cmd : List String) (s : PyState) :
    ((∃ ex s₁, process_call env cmd s = (Except.error (PyErr.procError ex), s₁)) ↔
       (env cmd).returncode ≠ 0) ∧
    ((env cmd).returncode ≠ 0 →
      process_call env cmd s =
        (Except.error (PyErr.procError
           ⟨(env cmd).returncode, cmd, (env cmd).stdout, (env cmd).stderr⟩),
         { s with trace := s.trace ++ [cmd] })) ∧
    ((env cmd).returncode = 0 →
      process_call env cmd s =
        (Except.ok ((0 : Int), (env cmd).stdout, (env cmd).stderr),
         { s with trace := s.trace ++ [cmd] })) := by
  refine ⟨⟨?_, ?_⟩, ?_, ?_⟩
  · rintro ⟨ex, s₁, he⟩ h0
    rw [process_call_zero env cmd s h0] at he
    simp at he
  · intro h
    exact ⟨_, _, process_call_nonzero env cmd s h⟩
  · exact process_call_nonzero env cmd s
  · intro h
    have hz := process_call_zero env cmd s h
    rw [h] at hz
    exact hz

/-- C5 witness: a command exiting with code 2 yields a `ProcessException`
whose exit-code field is 2 and whose command field is the argument vector. -/
theorem process_call_raises_iff_witness :
    process_call envExit2 ["simulated"] st0 =
      (Except.error (PyErr.procError ⟨2, ["simulated"], "out", "err"⟩),
       { fs := [], trace := [["simulated"]] }) :=
  (process_call_raises_iff envExit2 ["simulated"] st0).2.1 (by decide)

/-- C9: constructing a `VPNC` with `config_folder` left `None` on a platform
starting with neither `linux` nor `darwin` raises `TypeError` from the
constructor, so no object is obtained. -/
theorem vpnc_init_unsupported (platform here : String) (config : Option Config)
    (config_file : String)
    (h1 : pyStartsWith platform "linux" = false)
    (h2 : pyStartsWith platform "darwin" = false) :
    ∃ msg, VPNC.init platform here config config_file none =
      Except.error (PyErr.typeError msg) := by
  refine ⟨"expected str, bytes or os.PathLike object, not NoneType", ?_⟩
  unfold VPNC.init
  simp [h1, h2]

/-- C9 witness: on `win32` with no explicit folder the constructor raises. -/
theorem vpnc_init_unsupported_witness :
    ∃ msg, VPNC.init "win32" "/app/vpnc" (some cfg0) "tempvpnc.conf" none =
      Except.error (PyErr.typeError msg) :=
  vpnc_init_unsupported "win32" "/app/vpnc" (some cfg0) "tempvpnc.conf" (by decide) (by decide)

/-- C3: the scoped-session helper starts by running `connect`; when the body
of the scope completes normally the result continues with `disconnect` from
the state the body produced, and when the body raises, the exception and the
state it left are returned as-is, so `disconnect` is never invoked (no
cleanup-on-exception around the `yield`). -/
theorem vpn_scoped_session (env : Env) (v : VPNC) (body : PyM Unit) (s s₁ : PyState) :
    ((VPNC.connect env v s = (Except.ok (), s₁)) →
      (∀ s₂, body s₁ = (Except.ok (), s₂) →
        VPNC.vpn env v body s = VPNC.disconnect env v s₂) ∧
      (∀ e s₂, body s₁ = (Except.error e, s₂) →
        VPNC.vpn env v body s = (Except.error e, s₂))) ∧
    (∀ e, VPNC.connect env v s = (Except.error e, s₁) →
      VPNC.vpn env v body s = (Except.error e, s₁)) := by
  constructor
  · intro hc
    constructor
    · intro s₂ hb
      show PyM.bind _ _ s = _
      rw [PyM.bind_apply, hc]
      show PyM.bind _ _ s₁ = _
      rw [PyM.bind_apply, hb]
    · intro e s₂ hb
      show PyM.bind _ _ s = _
      rw [PyM.bind_apply, hc]
      show PyM.bind _ _ s₁ = _
      rw [PyM.bind_apply, hb]
  · intro e hc
    show PyM.bind _ _ s = _
    rw [PyM.bind_apply, hc]

/-- C3 witness: with all external commands succeeding, a body that raises
makes `vpn` return that exception with the post-connect state unchanged; in
particular the trace contains no `vpnc-disconnect` and no `rm` invocation. -/
theorem vpn_scoped_session_witness :
    VPNC.vpn envOk v0 bodyBoom st0 = (Except.error (PyErr.keyError "boom"), stConn) :=
  ((vpn_scoped_session envOk v0 bodyBoom st0 stConn).1 (by decide)).2
    (PyErr.keyError "boom") stConn rfl

/-- C10: `disconnect` issues `vpnc-disconnect` first and the removal command
only afterwards; when `vpnc-disconnect` exits non-zero the raised
`ProcessException` ends `disconnect` with the trace extended by the
disconnect command alone (no `rm` is ever issued) and the modelled
filesystem component unchanged, so the config file at the privileged path is
untouched. -/
theorem disconnect_order_and_failure (env : Env) (v : VPNC) (s : PyState) :
    ((env vpncDisconnectCmd).returncode ≠ 0 →
      VPNC.disconnect env v s =
        (Except.error (PyErr.procError
           ⟨(env vpncDisconnectCmd).returncode, vpncDisconnectCmd,
            (env vpncDisconnectCmd).stdout, (env vpncDisconnectCmd).stderr⟩),
         { s with trace := s.trace ++ [vpncDisconnectCmd] })) ∧
    ((env vpncDisconnectCmd).returncode = 0 → (env (rmCmd v)).returncode = 0 →
      VPNC.disconnect env v s =
        (Except.ok (), { s with trace := s.trace ++ [vpncDisconnectCmd, rmCmd v] })) := by
  constructor
  · intro h
    show PyM.bind _ _ s = _
    rw [PyM.bind_apply, process_call_nonzero env vpncDisconnectCmd s h]
  · intro h1 h2
    show PyM.bind _ _ s = _
    rw [PyM.bind_apply, process_call_zero env vpncDisconnectCmd s h1]
    show PyM.bind _ _ _ = _
    rw [PyM.bind_apply]
    unfold VPNC.remove_config_file
    rw [process_call_zero env (rmCmd v) _ h2]
    simp [PyM.pure]

/-- C10 witness: when only `vpnc-disconnect` fails, `disconnect` raises its
`ProcessException` and the trace shows no removal command. -/
theorem disconnect_order_and_failure_witness :
    VPNC.disconnect envDcFail v0 st0 =
      (Except.error (PyErr.procError ⟨1, vpncDisconnectCmd, "", "no vpnc found running"⟩),
       { st0 with trace := st0.trace ++ [vpncDisconnectCmd] }) :=
  (disconnect_order_and_failure envDcFail v0 st0).1 (by decide)

/-- C2 counterexample: with `IPSec_gateway` (and four other keys) absent,
`create_config_file` does not complete and does not write any placeholder
text: the percent-substitution raises `KeyError` and the temp file is left
truncated to the empty string. -/
theorem create_config_file_missing_key_cex :
    VPNC.create_config_file vMissing st0 =
      (Except.error (PyErr.keyError "IPSec_gateway"),
       { fs := [("/app/vpnc/tempvpnc.conf", "")], trace := [] }) := by
  decide

/-- C2 amended: for every config missing at least one of the six required
keys, `create_config_file` raises `KeyError` for a missing required key (the
first one in template order) and leaves the temp file truncated to empty, so
the output never contains a placeholder marker for the absent field. -/
theorem create_config_file_missing_key (v : VPNC) (s : PyState) (k₀ : String)
    (hk : k₀ ∈ requiredKeys) (hmiss : lookupKey v.config k₀ = none) :
    ∃ k, k ∈ requiredKeys ∧ lookupKey v.config k = none ∧
      VPNC.create_config_file v s =
        (Except.error (PyErr.keyError k),
         { s with fs := FS.write s.fs v.temp_config_path "" }) := by
  cases h1 : lookupKey v.config "IPSec_gateway" with
  | none =>
      exact ⟨_, by decide, h1, by simp [VPNC.create_config_file, formatConfig, h1]⟩
  | some g =>
  cases h2 : lookupKey v.config "IPSec_ID" with
  | none =>
      exact ⟨_, by decide, h2, by simp [VPNC.create_config_file, formatConfig, h1, h2]⟩
  | some i =>
  cases h3 : lookupKey v.config "IPSec_secret" with
  | none =>
      exact ⟨_, by decide, h3, by simp [VPNC.create_config_file, formatConfig, h1, h2, h3]⟩
  | some sec =>
  cases h4 : lookupKey v.config "IKE_Authmode" with
  | none =>
      exact ⟨_, by decide, h4,
        by simp [VPNC.create_config_file, formatConfig, h1, h2, h3, h4]⟩
  | some m =>
  cases h5 : lookupKey v.config "Xauth_username" with
  | none =>
      exact ⟨_, by decide, h5,
        by simp [VPNC.create_config_file, formatConfig, h1, h2, h3, h4, h5]⟩
  | some u =>
  cases h6 : lookupKey v.config "Xauth_password" with
  | none =>
      exact ⟨_, by decide, h6,
        by simp [VPNC.create_config_file, formatConfig, h1, h2, h3, h4, h5, h6]⟩
  | some p =>
      exfalso
      simp [requiredKeys] at hk
      rcases hk with rfl | rfl | rfl | rfl | rfl | rfl <;> simp_all

/-- C2 witness: the amended statement applied to the concrete config missing
`IPSec_gateway`. -/
theorem create_config_file_missing_key_witness :
    ∃ k, k ∈ requiredKeys ∧ lookupKey vMissing.config k = none ∧
      VPNC.create_config_file vMissing st0 =
        (Except.error (PyErr.keyError k),
         { st0 with fs := FS.write st0.fs vMissing.temp_config_path "" }) :=
  create_config_file_missing_key vMissing st0 "IPSec_gateway" (by decide) (by decide)

lemma darwin_not_linux (p : String) (h : pyStartsWith p "darwin" = true) :
    pyStartsWith p "linux" = false := by
  unfold pyStartsWith at h ⊢
  have hd : "darwin".data = ['d', 'a', 'r', 'w', 'i', 'n'] := rfl
  have hl : "linux".data = ['l', 'i', 'n', 'u', 'x'] := rfl
  rw [hd] at h
  rw [hl]
  cases hp : p.data with
  | nil =>
      rw [hp] at h
      simp [List.isPrefixOf] at h
  | cons c cs =>
      rw [hp] at h
      simp only [List.isPrefixOf, Bool.and_eq_true, beq_iff_eq] at h
      obtain ⟨h1, -⟩ := h
      subst h1
      simp [List.isPrefixOf]

/-- C8: with the default file name and no explicit folder, the temporary path
is the module directory joined with `tempvpnc.conf`; the privileged path is
`/etc/vpnc/tempvpnc.conf` when the platform starts with `linux` and
`/usr/local/etc/vpnc/tempvpnc.conf` when it starts with `darwin`. -/
theorem vpnc_init_default_paths (platform here : String) (config : Option Config) :
    (pyStartsWith platform "linux" = true →
      ∃ v, VPNC.init platform here config "tempvpnc.conf" none = Except.ok v ∧
        v.temp_config_path = pyJoin here "tempvpnc.conf" ∧
        v.config_path = "/etc/vpnc/tempvpnc.conf") ∧
    (pyStartsWith platform "darwin" = true →
      ∃ v, VPNC.init platform here config "tempvpnc.conf" none = Except.ok v ∧
        v.temp_config_path = pyJoin here "tempvpnc.conf" ∧
        v.config_path = "/usr/local/etc/vpnc/tempvpnc.conf") := by
  constructor
  · intro h
    refine ⟨⟨config.getD [], "tempvpnc.conf", pyJoin here "tempvpnc.conf",
             "/etc/vpnc", pyJoin "/etc/vpnc" "tempvpnc.conf"⟩, ?_, rfl,
           by show pyJoin "/etc/vpnc" "tempvpnc.conf" = _; decide⟩
    unfold VPNC.init
    simp [h]
  · intro h
    refine ⟨⟨config.getD [], "tempvpnc.conf", pyJoin here "tempvpnc.conf",
             "/usr/local/etc/vpnc", pyJoin "/usr/local/etc/vpnc" "tempvpnc.conf"⟩,
           ?_, rfl, by show pyJoin "/usr/local/etc/vpnc" "tempvpnc.conf" = _; decide⟩
    unfold VPNC.init
    simp [darwin_not_linux platform h, h]

/-- C8 witness: the linux case at the concrete platform string `linux` and
module directory `/app/vpnc`. -/
theorem vpnc_init_default_paths_witness :
    ∃ v, VPNC.init "linux" "/app/vpnc" (some cfg0) "tempvpnc.conf" none = Except.ok v ∧
      v.temp_config_path = pyJoin "/app/vpnc" "tempvpnc.conf" ∧
      v.config_path = "/etc/vpnc/tempvpnc.conf" :=
  (vpnc_init_default_paths "linux" "/app/vpnc" (some cfg0)).1 (by decide)

/-- C7: when the config renders, `connect` renders into the temp path (the
two filesystem writes of open and print), then issues `mv`, `chown`,
`chmod`, `vpnc tempvpnc` in that order; the first command that exits
non-zero raises the structured `ProcessException` for that command and
stops the sequence, and if all four exit zero the whole call returns
normally with all four commands in the trace. -/
theorem connect_spec (env : Env) (v : VPNC) (s : PyState) (str : String)
    (hfmt : formatConfig v.config = Except.ok str) :
    ((env (mvCmd v)).returncode ≠ 0 →
      VPNC.connect env v s =
        (Except.error (PyErr.procError
           ⟨(env (mvCmd v)).returncode, mvCmd v,
            (env (mvCmd v)).stdout, (env (mvCmd v)).stderr⟩),
         { s with
             fs := FS.write (FS.write s.fs v.temp_config_path "") v.temp_config_path (str ++ "\n"),
             trace := s.trace ++ [mvCmd v] })) ∧
    ((env (mvCmd v)).returncode = 0 → (env (chownCmd v)).returncode ≠ 0 →
      VPNC.connect env v s =
        (Except.error (PyErr.procError
           ⟨(env (chownCmd v)).returncode, chownCmd v,
            (env (chownCmd v)).stdout, (env (chownCmd v)).stderr⟩),
         { s with
             fs := FS.write (FS.write s.fs v.temp_config_path "") v.temp_config_path (str ++ "\n"),
             trace := s.trace ++ [mvCmd v, chownCmd v] })) ∧
    ((env (mvCmd v)).returncode = 0 → (env (chownCmd v)).returncode = 0 →
     (env (chmodCmd v)).returncode ≠ 0 →
      VPNC.connect env v s =
        (Except.error (PyErr.procError
           ⟨(env (chmodCmd v)).returncode, chmodCmd v,
            (env (chmodCmd v)).stdout, (env (chmodCmd v)).stderr⟩),
         { s with
             fs := FS.write (FS.write s.fs v.temp_config_path "") v.temp_config_path (str ++ "\n"),
             trace := s.trace ++ [mvCmd v, chownCmd v, chmodCmd v] })) ∧
    ((env (mvCmd v)).returncode = 0 → (env (chownCmd v)).returncode = 0 →
     (env (chmodCmd v)).returncode = 0 → (env vpncCmd).returncode ≠ 0 →
      VPNC.connect env v s =
        (Except.error (PyErr.procError
           ⟨(env vpncCmd).returncode, vpncCmd,
            (env vpncCmd).stdout, (env vpncCmd).stderr⟩),
         { s with
             fs := FS.write (FS.write s.fs v.temp_config_path "") v.temp_config_path (str ++ "\n"),
             trace := s.trace ++ [mvCmd v, chownCmd v, chmodCmd v, vpncCmd] })) ∧
    ((env (mvCmd v)).returncode = 0 → (env (chownCmd v)).returncode = 0 →
     (env (chmodCmd v)).returncode = 0 → (env vpncCmd).returncode = 0 →
      VPNC.connect env v s =
        (Except.ok (),
         { s with
             fs := FS.write (FS.write s.fs v.temp_config_path "") v.temp_config_path (str ++ "\n"),
             trace := s.trace ++ [mvCmd v, chownCmd v, chmodCmd v, vpncCmd] })) := by
  refine ⟨?_, ?_, ?_, ?_, ?_⟩ <;>
    intros <;>
    simp_all [VPNC.connect, VPNC.create_config_file, VPNC.move_config_file,
      process_call, PyM.bind, PyM.pure, hfmt]

/-- C7 witness: with the complete config `cfg0` and an environment where
only `chown` fails (exit 3), `connect` raises the `ProcessException` for the
`chown` command and the trace stops there. -/
theorem connect_spec_witness :
    VPNC.connect envChownFail v0 st0 =
      (Except.error (PyErr.procError ⟨3, chownCmd v0, "", "chown: operation not permitted"⟩),
       { st0 with
           fs := FS.write (FS.write st0.fs v0.temp_config_path "") v0.temp_config_path (body0 ++ "\n"),
           trace := st0.trace ++ [mvCmd v0, chownCmd v0] }) :=
  (connect_spec envChownFail v0 st0 body0 (by decide)).2.1 (by decide) (by decide)

lemma splitNl_chunkB (k v t rest : List Char)
    (hk : ∀ c ∈ k, c ≠ Char.ofNat 10) (hv : ∀ c ∈ v, c ≠ Char.ofNat 10) :
    splitNl (k ++ (v ++ ((Char.ofNat 10 :: t) ++ rest))) =
      (k ++ v) :: splitNl (t ++ rest) := by
  have h : (Char.ofNat 10 :: t) ++ rest = Char.ofNat 10 :: (t ++ rest) := rfl
  rw [h]
  exact splitNl_chunk k v (t ++ rest) hk hv

/-- C6 counterexample: `cfgNl` contains all six required string fields, yet
the written file has seven physical lines (a newline inside the gateway value
is copied verbatim), so the file is not six lines of the claimed key-value
shape. -/
theorem create_config_file_newline_cex :
    (requiredKeys.all (fun k => (lookupKey cfgNl k).isSome) = true) ∧
    (VPNC.create_config_file vNl st0 =
      (Except.ok (), { fs := [("/app/vpnc/tempvpnc.conf", contentNl)], trace := [] })) ∧
    (pyLines contentNl).length = 7 := by
  decide

/-- C6 amended: for every config containing the six required fields whose
values contain no newline character, `create_config_file` succeeds and the
written file consists of exactly six lines in the fixed key order, each the
fixed key text followed by the verbatim field value (the `print` call adds
the trailing newline). -/
theorem create_config_file_complete (v : VPNC) (s : PyState)
    (g i sec m u p : String)
    (hg : lookupKey v.config "IPSec_gateway" = some g)
    (hi : lookupKey v.config "IPSec_ID" = some i)
    (hs : lookupKey v.config "IPSec_secret" = some sec)
    (hm : lookupKey v.config "IKE_Authmode" = some m)
    (hu : lookupKey v.config "Xauth_username" = some u)
    (hp : lookupKey v.config "Xauth_password" = some p)
    (ng : noNl g) (ni : noNl i) (ns : noNl sec)
    (nm : noNl m) (nu : noNl u) (np : noNl p) :
    ∃ content,
      VPNC.create_config_file v s =
        (Except.ok (),
         { s with fs := FS.write (FS.write s.fs v.temp_config_path "")
                          v.temp_config_path content }) ∧
      pyLines content =
        ["IPSec gateway " ++ g, "IPSec ID " ++ i, "IPSec secret " ++ sec,
         "IKE Authmode " ++ m, "Xauth username " ++ u, "Xauth password " ++ p] := by
  refine ⟨"IPSec gateway " ++ g ++ "\n" ++ "IPSec ID " ++ i ++ "\n" ++
          "IPSec secret " ++ sec ++ "\n" ++ "IKE Authmode " ++ m ++ "\n" ++
          "Xauth username " ++ u ++ "\n" ++ "Xauth password " ++ p ++ "\n", ?_, ?_⟩
  · simp [VPNC.create_config_file, formatConfig, hg, hi, hs, hm, hu, hp]
  · unfold pyLines
    simp only [String.data_append]
    simp only [List.append_assoc, List.singleton_append]
    rw [
        splitNl_chunkB ['I', 'P', 'S', 'e', 'c', ' ', 'g', 'a', 't', 'e', 'w', 'a', 'y', ' '] g.data _ _ (by decide) ng,
        splitNl_chunkB ['I', 'P', 'S', 'e', 'c', ' ', 'I', 'D', ' '] i.data _ _ (by decide) ni,
        splitNl_chunkB ['I', 'P', 'S', 'e', 'c', ' ', 's', 'e', 'c', 'r', 'e', 't', ' '] sec.data _ _ (by decide) ns,
        splitNl_chunkB ['I', 'K', 'E', ' ', 'A', 'u', 't', 'h', 'm', 'o', 'd', 'e', ' '] m.data _ _ (by decide) nm,
        splitNl_chunkB ['X', 'a', 'u', 't', 'h', ' ', 'u', 's', 'e', 'r', 'n', 'a', 'm', 'e', ' '] u.data _ _ (by decide) nu,
        splitNl_chunk ['X', 'a', 'u', 't', 'h', ' ', 'p', 'a', 's', 's', 'w', 'o', 'r', 'd', ' '] p.data _ (by decide) np]
    rfl

/-- C6 witness: the amended statement at the concrete complete config
`cfg0`, whose values contain no newline. -/
theorem create_config_file_complete_witness :
    ∃ content,
      VPNC.create_config_file v0 st0 =
        (Except.ok (),
         { st0 with fs := FS.write (FS.write st0.fs v0.temp_config_path "")
                          v0.temp_config_path content }) ∧
      pyLines content =
        ["IPSec gateway " ++ "gw", "IPSec ID " ++ "id", "IPSec secret " ++ "sc",
         "IKE Authmode " ++ "psk", "Xauth username " ++ "u", "Xauth password " ++ "p"] :=
  create_config_file_complete v0 st0 "gw" "id" "sc" "psk" "u" "p"
    (by decide) (by decide) (by decide) (by decide) (by decide) (by decide)
    (by decide) (by decide) (by decide) (by decide) (by decide) (by decide)
